import Mathlib

/-!
Verification of the validated write path of the apple-retail-store-location API
(`src/main.py`): record schema, length validation, normalization, and the
create/read/update handlers, embedded shallowly.  The storage collaborator
(a hosted key-value document store) and the UTC clock are external to the
source and are modelled from the spec as an opaque key-value map and a
strictly advancing tick counter.
-/

namespace AppleStores

/-- Constant `SMALL_ALLOWED = 3` from `src/main.py` (line 15). -/
def SMALL_ALLOWED : Nat := 3

/-- Embedding of Python `str.upper` on one character (ASCII case mapping:
codepoints 97..122 map down by 32, everything else is unchanged). -/
def upperChar (c : Char) : Char :=
  if 97 ≤ c.toNat ∧ c.toNat ≤ 122 then Char.ofNat (c.toNat - 32) else c

/-- Embedding of Python `str.upper` on a string: character-wise `upperChar`. -/
def upperStr (s : String) : String := ⟨s.data.map upperChar⟩

/-- Validation helper `small_allowed` from `src/main.py` (lines 45-46):
`len(value) > SMALL_ALLOWED`. -/
def small_allowed (value : String) : Bool := value.length > SMALL_ALLOWED

/-- The pydantic request model `Store` from `src/main.py` (lines 32-41):
`code_name`, `country`, `city`, `address`, `number` and `link` are required;
`phone`, `latitude` and `longitude` are optional (default `None`).
Python floats are modelled as rationals; they are only passed through. -/
structure Store where
  code_name : String
  country : String
  city : String
  address : String
  number : Int
  phone : Option String
  latitude : Option Rat
  longitude : Option Rat
  link : String
deriving DecidableEq

/-- A stored document: the dict built by `post_new_store` / `update_store`
(`src/main.py` lines 137-149 and 164-176).  Timestamps are clock ticks. -/
structure Record where
  code_name : String
  country : String
  city : String
  address : String
  number : Int
  phone : Option String
  latitude : Option Rat
  longitude : Option Rat
  link : String
  created_at : Nat
  updated_at : Nat
deriving DecidableEq

/-- A FastAPI `HTTPException` payload: status code and detail message. -/
structure HTTPException where
  status_code : Nat
  detail : String
deriving DecidableEq

/-- Outcome of a handler call: a returned body, a raised `HTTPException`,
or an unhandled Python exception (e.g. a `TypeError` from subscripting
`None`), which FastAPI surfaces as a 500, not as an HTTP error response
built by the handler. -/
inductive Outcome (α : Type) where
  | ok : α → Outcome α
  | httpErr : HTTPException → Outcome α
  | crash : String → Outcome α
deriving DecidableEq

/-- Modelled from the spec: the storage collaborator is an opaque key-value
document store (`deta.Base("stores")`), a map from opaque string keys to
records. -/
def Db : Type := String → Option Record

/-- Process state threaded through the handlers: the stores collection, the
UTC clock (as a tick counter; each `datetime.now` call reads the current
tick and strictly advances the clock), and the storage collaborator's
supply of fresh keys. -/
structure State where
  db : Db
  clock : Nat
  nextKey : Nat

/-- Modelled from the spec: one call of `datetime.now(timezone.utc)` —
returns the current tick and strictly advances the clock, so successive
calls return strictly increasing timestamps. -/
def now (s : State) : Nat × State := (s.clock, { s with clock := s.clock + 1 })

/-- Modelled from the spec: the storage collaborator's point lookup
`db.get(key)` — the record at the key, or `none` when absent. -/
def dbGet (db : Db) (k : String) : Option Record := db k

/-- Modelled from the spec: `db.put(data)` — stores the record under a fresh
opaque key assigned by the storage collaborator and returns that key. -/
def dbPutNew (s : State) (r : Record) : String × State :=
  let k := "key" ++ toString s.nextKey
  (k, { s with db := fun q => if q = k then some r else s.db q,
               nextKey := s.nextKey + 1 })

/-- The raw JSON body of a PUT request (`store: dict` in `src/main.py` line
160): any subset of the record's fields may be supplied; a supplied field
replaces the stored one on merge-update. -/
structure UpdateDict where
  code_name : Option String
  country : Option String
  city : Option String
  address : Option String
  number : Option Int
  phone : Option (Option String)
  latitude : Option (Option Rat)
  longitude : Option (Option Rat)
  link : Option String
  created_at : Option Nat
  updated_at : Option Nat
deriving DecidableEq

/-- Field-wise merge of a raw update dict into a stored record: each
supplied field replaces the stored value. -/
def applyUpdate (u : UpdateDict) (r : Record) : Record :=
  { code_name := u.code_name.getD r.code_name
    country := u.country.getD r.country
    city := u.city.getD r.city
    address := u.address.getD r.address
    number := u.number.getD r.number
    phone := u.phone.getD r.phone
    latitude := u.latitude.getD r.latitude
    longitude := u.longitude.getD r.longitude
    link := u.link.getD r.link
    created_at := u.created_at.getD r.created_at
    updated_at := u.updated_at.getD r.updated_at }

/-- Modelled from the spec: the storage collaborator's merge-update
`db.update(updates, key)` — merges the supplied fields into the record at
the key; on an absent key the store is unchanged (the spec treats storage
as opaque and specifies the merge only for existing records).  It returns
`None` on success, so the caller's `res is not None` check never fires. -/
def dbUpdate (db : Db) (k : String) (u : UpdateDict) : Db :=
  fun q => if q = k then (db k).map (applyUpdate u) else db q

/-- Modelled from the spec: `db.update(data, key)` where `data` supplies
every record field — replaces the record at the key; absent key unchanged. -/
def dbSet (db : Db) (k : String) (r : Record) : Db :=
  fun q => if q = k then (db k).map (fun _ => r) else db q

/-- Handler of `GET /api/v1/stores/{store_id}` (`src/main.py` lines 87-95).
The source wraps `if res is not None: return res` in a `try` whose `except`
raises the 404; since the `is not None` test cannot raise, that branch is
unreachable, and when `res` is `None` the function falls through and
returns `None` (an HTTP 200 with a null body). -/
def get_store_details (s : State) (store_id : String) : Outcome (Option Record) :=
  let res := dbGet s.db store_id
  match res with
  | some r => .ok (some r)
  | none => .ok none

/-- Handler of `POST /stores` (`src/main.py` lines 102-151): sequential
length checks on `code_name`, `country`, `city`, `address` (and, after the
clamp and the optional-field reads, on `link`), each raising a 400 with a
bracketed field tag and the offending value; then the record is built with
the four text fields upper-cased, `number` clamped via `max(store.number, 0)`,
the optional fields and `link` verbatim, and `created_at` / `updated_at`
stamped by two successive `datetime.now(timezone.utc)` calls; finally
`db.put` persists it under a fresh key. -/
def post_new_store (store : Store) (s : State) : Outcome (String × Record) × State :=
  if store.code_name.length ≤ SMALL_ALLOWED then
    (.httpErr ⟨400, "[CODE_NAME] Value " ++ store.code_name ++ " is too short"⟩, s)
  else if store.country.length ≤ SMALL_ALLOWED then
    (.httpErr ⟨400, "[COUNTRY] Value " ++ store.country ++ " is too short"⟩, s)
  else if store.city.length ≤ SMALL_ALLOWED then
    (.httpErr ⟨400, "[CITY] Value " ++ store.city ++ " is too short"⟩, s)
  else if store.address.length ≤ SMALL_ALLOWED then
    (.httpErr ⟨400, "[ADDRESS] Value " ++ store.address ++ " is too short"⟩, s)
  else
    let number : Int := max store.number 0
    let phone := store.phone
    let latitude := store.latitude
    let longitude := store.longitude
    if store.link.length ≤ SMALL_ALLOWED then
      (.httpErr ⟨400, "[LINK] Value " ++ store.link ++ " is too short"⟩, s)
    else
      let (t1, s1) := now s
      let (t2, s2) := now s1
      let data : Record :=
        { code_name := upperStr store.code_name
          country := upperStr store.country
          city := upperStr store.city
          address := upperStr store.address
          number := number
          phone := phone
          latitude := latitude
          longitude := longitude
          link := store.link
          created_at := t1
          updated_at := t2 }
      let (key, s3) := dbPutNew s2 data
      (.ok (key, data), s3)

/-- Handler of `PUT /stores/{store_id}` (`src/main.py` lines 159-182):
first a raw merge-update of the request dict, then a read-back whose result
is subscripted without a `None` check (`req["code_name"]` on a `None`
read-back raises `TypeError`), then a full rewrite with the text fields
upper-cased, `number`, the optional fields, `link` and `created_at` copied
from the read-back, and `updated_at` re-stamped; the second `db.update`
returns `None` on success so the `res is not None` 400 branch is not taken,
and the final `db.get` result is returned. -/
def update_store (s : State) (store_id : String) (store : UpdateDict) :
    Outcome (Option Record) × State :=
  let db1 := dbUpdate s.db store_id store
  match dbGet db1 store_id with
  | none =>
      (.crash "TypeError: NoneType object is not subscriptable", { s with db := db1 })
  | some req =>
      let (t, s1) := now { s with db := db1 }
      let data : Record :=
        { code_name := upperStr req.code_name
          country := upperStr req.country
          city := upperStr req.city
          address := upperStr req.address
          number := req.number
          phone := req.phone
          latitude := req.latitude
          longitude := req.longitude
          link := req.link
          created_at := req.created_at
          updated_at := t }
      let db2 := dbSet s1.db store_id data
      (.ok (dbGet db2 store_id), { s1 with db := db2 })

/-- The normalization the write path applies before persistence: upper-case
the designated text fields (`code_name`, `country`, `city`, `address`),
leave every other field unchanged (inlined in `post_new_store` lines
138-141 and `update_store` lines 165-168 of `src/main.py`). -/
def normalize (r : Record) : Record :=
  { r with code_name := upperStr r.code_name
           country := upperStr r.country
           city := upperStr r.city
           address := upperStr r.address }

/-! ### Helper lemmas about the write path -/

/-- Valid codepoints below the surrogate range round-trip through `Char.ofNat`. -/
lemma toNat_ofNat_valid (n : Nat) (h : n < 55296) : (Char.ofNat n).toNat = n := by
  simp [Char.ofNat, Nat.isValidChar, h, Char.toNat, Char.ofNatAux, UInt32.toNat,
    BitVec.toNat_ofNatLt]

/-- Character-wise upper-casing is idempotent. -/
lemma upperChar_idem (c : Char) : upperChar (upperChar c) = upperChar c := by
  by_cases h : 97 ≤ c.toNat ∧ c.toNat ≤ 122
  · have h1 : (Char.ofNat (c.toNat - 32)).toNat = c.toNat - 32 :=
      toNat_ofNat_valid _ (by omega)
    simp only [upperChar, if_pos h]
    rw [if_neg]
    omega
  · simp only [upperChar, if_neg h]

/-- String upper-casing is idempotent. -/
lemma upperStr_idem (s : String) : upperStr (upperStr s) = upperStr s := by
  simp [upperStr, List.map_map, Function.comp_def, upperChar_idem]

/-- A create rejected on `code_name`: first check fires, nothing else runs. -/
lemma post_reject_code_name (store : Store) (s : State)
    (h : store.code_name.length ≤ 3) :
    post_new_store store s =
      (.httpErr ⟨400, "[CODE_NAME] Value " ++ store.code_name ++ " is too short"⟩, s) := by
  simp [post_new_store, SMALL_ALLOWED, h]

/-- A create rejected on `country`, once `code_name` has passed. -/
lemma post_reject_country (store : Store) (s : State)
    (h0 : 4 ≤ store.code_name.length) (h : store.country.length ≤ 3) :
    post_new_store store s =
      (.httpErr ⟨400, "[COUNTRY] Value " ++ store.country ++ " is too short"⟩, s) := by
  simp [post_new_store, SMALL_ALLOWED, h]
  omega

/-- A create rejected on `city`, once `code_name` and `country` have passed. -/
lemma post_reject_city (store : Store) (s : State)
    (h0 : 4 ≤ store.code_name.length) (h1 : 4 ≤ store.country.length)
    (h : store.city.length ≤ 3) :
    post_new_store store s =
      (.httpErr ⟨400, "[CITY] Value " ++ store.city ++ " is too short"⟩, s) := by
  have c0 : ¬ store.code_name.length ≤ 3 := by omega
  have c1 : ¬ store.country.length ≤ 3 := by omega
  simp [post_new_store, SMALL_ALLOWED, c0, c1, h]

/-- A create rejected on `address`, once the earlier three fields have passed. -/
lemma post_reject_address (store : Store) (s : State)
    (h0 : 4 ≤ store.code_name.length) (h1 : 4 ≤ store.country.length)
    (h2 : 4 ≤ store.city.length) (h : store.address.length ≤ 3) :
    post_new_store store s =
      (.httpErr ⟨400, "[ADDRESS] Value " ++ store.address ++ " is too short"⟩, s) := by
  have c0 : ¬ store.code_name.length ≤ 3 := by omega
  have c1 : ¬ store.country.length ≤ 3 := by omega
  have c2 : ¬ store.city.length ≤ 3 := by omega
  simp [post_new_store, SMALL_ALLOWED, c0, c1, c2, h]

/-- A create rejected on `link`, once the four location fields have passed. -/
lemma post_reject_link (store : Store) (s : State)
    (h0 : 4 ≤ store.code_name.length) (h1 : 4 ≤ store.country.length)
    (h2 : 4 ≤ store.city.length) (h3 : 4 ≤ store.address.length)
    (h : store.link.length ≤ 3) :
    post_new_store store s =
      (.httpErr ⟨400, "[LINK] Value " ++ store.link ++ " is too short"⟩, s) := by
  have c0 : ¬ store.code_name.length ≤ 3 := by omega
  have c1 : ¬ store.country.length ≤ 3 := by omega
  have c2 : ¬ store.city.length ≤ 3 := by omega
  have c3 : ¬ store.address.length ≤ 3 := by omega
  simp [post_new_store, SMALL_ALLOWED, c0, c1, c2, c3, h]

/-- A create whose five validated fields all have length at least 4 persists
the normalized record under the fresh key and advances the clock twice. -/
lemma post_success (store : Store) (s : State)
    (h0 : 4 ≤ store.code_name.length) (h1 : 4 ≤ store.country.length)
    (h2 : 4 ≤ store.city.length) (h3 : 4 ≤ store.address.length)
    (h4 : 4 ≤ store.link.length) :
    post_new_store store s =
      (.ok ("key" ++ toString s.nextKey,
        { code_name := upperStr store.code_name
          country := upperStr store.country
          city := upperStr store.city
          address := upperStr store.address
          number := max store.number 0
          phone := store.phone
          latitude := store.latitude
          longitude := store.longitude
          link := store.link
          created_at := s.clock
          updated_at := s.clock + 1 }),
       { db := fun q => if q = "key" ++ toString s.nextKey then some
           { code_name := upperStr store.code_name
             country := upperStr store.country
             city := upperStr store.city
             address := upperStr store.address
             number := max store.number 0
             phone := store.phone
             latitude := store.latitude
             longitude := store.longitude
             link := store.link
             created_at := s.clock
             updated_at := s.clock + 1 } else s.db q
         clock := s.clock + 2
         nextKey := s.nextKey + 1 }) := by
  have c0 : ¬ store.code_name.length ≤ 3 := by omega
  have c1 : ¬ store.country.length ≤ 3 := by omega
  have c2 : ¬ store.city.length ≤ 3 := by omega
  have c3 : ¬ store.address.length ≤ 3 := by omega
  have c4 : ¬ store.link.length ≤ 3 := by omega
  simp [post_new_store, SMALL_ALLOWED, c0, c1, c2, c3, c4, now, dbPutNew]

/-- Inversion: whatever a successful create returns is the normalized,
clamped, twice-stamped record built from the request. -/
lemma post_ok_inv (store : Store) (s : State) (key : String) (rec : Record)
    (h : (post_new_store store s).1 = .ok (key, rec)) :
    rec = { code_name := upperStr store.code_name
            country := upperStr store.country
            city := upperStr store.city
            address := upperStr store.address
            number := max store.number 0
            phone := store.phone
            latitude := store.latitude
            longitude := store.longitude
            link := store.link
            created_at := s.clock
            updated_at := s.clock + 1 } := by
  unfold post_new_store at h
  split_ifs at h
  all_goals simp_all [now, dbPutNew]

/-- An update on a present key: the merge succeeds, the read-back is the
merged record, and the rewritten record is its normalization with
`updated_at` re-stamped to the current clock tick. -/
lemma update_store_found (s : State) (k : String) (u : UpdateDict) (r : Record)
    (h : dbGet s.db k = some r) :
    update_store s k u =
      (.ok (some { normalize (applyUpdate u r) with updated_at := s.clock }),
       { db := dbSet (dbUpdate s.db k u) k
           { normalize (applyUpdate u r) with updated_at := s.clock }
         clock := s.clock + 1
         nextKey := s.nextKey }) := by
  have hm : dbGet (dbUpdate s.db k u) k = some (applyUpdate u r) := by
    simp [dbGet, dbUpdate] at h ⊢
    simp [h]
  simp only [update_store, hm, now, normalize]
  simp [dbGet, dbSet, dbUpdate, hm]
  exact ⟨r, h⟩

/-! ### Concrete fixtures -/

/-- The initial state: empty collection, clock and key supply at zero. -/
def s0 : State := ⟨fun _ => none, 0, 0⟩

/-- A valid create request used as a concrete fixture. -/
def sampleStore : Store :=
  ⟨"AAPL01", "united states", "cupertino", "1 infinite loop", 7, none, none, none, "http://x"⟩

/-- The spec's concrete create scenario, verbatim: `code_name:"AAPL01"`,
`country:"usa"`, `city:"cupertino"`, `address:"1 infinite loop"`,
`number:-1`, `link:"http://x"`. -/
def specStore : Store :=
  ⟨"AAPL01", "usa", "cupertino", "1 infinite loop", -1, none, none, none, "http://x"⟩

/-- The spec's concrete create scenario with its 3-character country
replaced by a country that passes the length check. -/
def amendedStore : Store :=
  ⟨"AAPL01", "united states", "cupertino", "1 infinite loop", -1, none, none, none, "http://x"⟩

/-- A create request whose `number` is `-5`. -/
def negStore : Store :=
  ⟨"AAPL01", "united states", "cupertino", "1 infinite loop", -5, none, none, none, "http://x"⟩

/-- A create request with a 3-character `code_name`. -/
def shortStore : Store :=
  ⟨"abc", "usaa", "citi", "addr", 0, none, none, none, "http"⟩

/-- A create request whose five validated fields all have exactly 4
characters: the minimum accepted. -/
def fourStore : Store :=
  ⟨"abcd", "usaa", "citi", "addr", 0, none, none, none, "http"⟩

/-- A valid create request whose `link` has a single character. -/
def shortLinkStore : Store :=
  ⟨"AAPL01", "united states", "cupertino", "1 infinite loop", 0, none, none, none, "x"⟩

/-- The record persisted by `post_new_store sampleStore s0`. -/
def sampleRec : Record :=
  ⟨"AAPL01", "UNITED STATES", "CUPERTINO", "1 INFINITE LOOP", 7, none, none, none,
    "http://x", 0, 1⟩

/-- A PUT body supplying only `number = -5`. -/
def uNeg : UpdateDict :=
  ⟨none, none, none, none, some (-5), none, none, none, none, none, none⟩

/-- A PUT body supplying only `created_at = 100`. -/
def uCreated : UpdateDict :=
  ⟨none, none, none, none, none, none, none, none, none, some 100, none⟩

/-! ### Claims -/

/-- C1: on create, each required text field (`code_name`, `country`, `city`,
`address`), checked in that fixed order, is rejected when its length is at
most 3 with an HTTP 400 whose message carries the field's bracketed tag and
the offending value; a field of length at least 4 passes its check (so a
4-character value is the minimum accepted), and when all four pass, the
only possible rejection left is the `link` check. -/
theorem c1_required_length_boundary (store : Store) (s : State) :
    ((store.code_name.length ≤ 3 ∨ store.country.length ≤ 3 ∨
      store.city.length ≤ 3 ∨ store.address.length ≤ 3) →
      ∃ e, (post_new_store store s).1 = .httpErr e ∧ e.status_code = 400)
  ∧ (store.code_name.length ≤ 3 →
      post_new_store store s =
        (.httpErr ⟨400, "[CODE_NAME] Value " ++ store.code_name ++ " is too short"⟩, s))
  ∧ (4 ≤ store.code_name.length → store.country.length ≤ 3 →
      post_new_store store s =
        (.httpErr ⟨400, "[COUNTRY] Value " ++ store.country ++ " is too short"⟩, s))
  ∧ (4 ≤ store.code_name.length → 4 ≤ store.country.length → store.city.length ≤ 3 →
      post_new_store store s =
        (.httpErr ⟨400, "[CITY] Value " ++ store.city ++ " is too short"⟩, s))
  ∧ (4 ≤ store.code_name.length → 4 ≤ store.country.length → 4 ≤ store.city.length →
      store.address.length ≤ 3 →
      post_new_store store s =
        (.httpErr ⟨400, "[ADDRESS] Value " ++ store.address ++ " is too short"⟩, s))
  ∧ (4 ≤ store.code_name.length → 4 ≤ store.country.length → 4 ≤ store.city.length →
      4 ≤ store.address.length →
      ∀ e, (post_new_store store s).1 = .httpErr e →
        e = ⟨400, "[LINK] Value " ++ store.link ++ " is too short"⟩)
  ∧ (4 ≤ store.code_name.length → 4 ≤ store.country.length → 4 ≤ store.city.length →
      4 ≤ store.address.length → 4 ≤ store.link.length →
      ∃ kr, (post_new_store store s).1 = .ok kr) := by
  refine ⟨?_, ?_, ?_, ?_, ?_, ?_, ?_⟩
  · intro hd
    by_cases h0 : store.code_name.length ≤ 3
    · exact ⟨_, by rw [post_reject_code_name store s h0], rfl⟩
    by_cases h1 : store.country.length ≤ 3
    · exact ⟨_, by rw [post_reject_country store s (by omega) h1], rfl⟩
    by_cases h2 : store.city.length ≤ 3
    · exact ⟨_, by rw [post_reject_city store s (by omega) (by omega) h2], rfl⟩
    have h3 : store.address.length ≤ 3 := by tauto
    exact ⟨_, by rw [post_reject_address store s (by omega) (by omega) (by omega) h3], rfl⟩
  · exact fun h => post_reject_code_name store s h
  · exact fun h0 h => post_reject_country store s h0 h
  · exact fun h0 h1 h => post_reject_city store s h0 h1 h
  · exact fun h0 h1 h2 h => post_reject_address store s h0 h1 h2 h
  · intro h0 h1 h2 h3 e he
    by_cases h4 : store.link.length ≤ 3
    · rw [post_reject_link store s h0 h1 h2 h3 h4] at he
      exact (Outcome.httpErr.injEq _ _).mp he.symm ▸ rfl
    · rw [post_success store s h0 h1 h2 h3 (by omega)] at he
      exact absurd he (by simp)
  · intro h0 h1 h2 h3 h4
    exact ⟨_, by rw [post_success store s h0 h1 h2 h3 h4]⟩

/-- Witness for C1: a 3-character `code_name` is rejected with the tagged
400, and a request whose five validated fields all have exactly 4
characters is accepted. -/
theorem c1_witness :
    post_new_store shortStore s0 =
        (.httpErr ⟨400, "[CODE_NAME] Value abc is too short"⟩, s0)
      ∧ ∃ kr, (post_new_store fourStore s0).1 = .ok kr :=
  ⟨(c1_required_length_boundary shortStore s0).2.1 (by decide),
   (c1_required_length_boundary fourStore s0).2.2.2.2.2.2
     (by decide) (by decide) (by decide) (by decide) (by decide)⟩

/-- C2 (counterexample): the spec's own concrete scenario is rejected, not
stored: its country `"usa"` has length 3, so `post_new_store` raises the
`[COUNTRY]`-tagged 400 and leaves the state untouched — no record with
`country = "USA"` is persisted for this input. -/
theorem c2_counterexample :
    post_new_store specStore s0 =
      (.httpErr ⟨400, "[COUNTRY] Value usa is too short"⟩, s0) :=
  post_reject_country specStore s0 (by decide) (by decide)

/-- C2 (amended): every valid create request persists the record with
`code_name`, `country`, `city` and `address` upper-cased and `phone`,
`latitude`, `longitude`, `link` stored verbatim (`number` clamped to
`max(input, 0)`); and the spec's scenario with its country widened to
`"united states"` stores `country = "UNITED STATES"`,
`city = "CUPERTINO"`, `address = "1 INFINITE LOOP"`, `number = 0`. -/
theorem c2_normalized_persist :
    (∀ (store : Store) (s : State),
      4 ≤ store.code_name.length → 4 ≤ store.country.length → 4 ≤ store.city.length →
      4 ≤ store.address.length → 4 ≤ store.link.length →
      ∃ key s', post_new_store store s =
        (.ok (key,
          { code_name := upperStr store.code_name
            country := upperStr store.country
            city := upperStr store.city
            address := upperStr store.address
            number := max store.number 0
            phone := store.phone
            latitude := store.latitude
            longitude := store.longitude
            link := store.link
            created_at := s.clock
            updated_at := s.clock + 1 }), s'))
  ∧ (post_new_store amendedStore s0).1 =
      .ok ("key0", ⟨"AAPL01", "UNITED STATES", "CUPERTINO", "1 INFINITE LOOP", 0,
        none, none, none, "http://x", 0, 1⟩) := by
  constructor
  · intro store s h0 h1 h2 h3 h4
    exact ⟨_, _, post_success store s h0 h1 h2 h3 h4⟩
  · decide

/-- Witness for C2's amended theorem: the general persistence shape applied
to the widened concrete scenario. -/
theorem c2_witness :
    ∃ key s', post_new_store amendedStore s0 =
      (.ok (key,
        { code_name := upperStr amendedStore.code_name
          country := upperStr amendedStore.country
          city := upperStr amendedStore.city
          address := upperStr amendedStore.address
          number := max amendedStore.number 0
          phone := amendedStore.phone
          latitude := amendedStore.latitude
          longitude := amendedStore.longitude
          link := amendedStore.link
          created_at := s0.clock
          updated_at := s0.clock + 1 }), s') :=
  c2_normalized_persist.1 amendedStore s0
    (by decide) (by decide) (by decide) (by decide) (by decide)

/-- C3 (counterexample): starting from a record created through POST, a PUT
supplying `number = -5` leaves a stored record whose `number` is `-5`: the
update path copies the merged number verbatim, without the clamp. -/
theorem c3_counterexample :
    ((update_store (post_new_store sampleStore s0).2 "key0" uNeg).2).db "key0" =
      some ⟨"AAPL01", "UNITED STATES", "CUPERTINO", "1 INFINITE LOOP", -5, none, none, none,
        "http://x", 0, 2⟩ := by
  decide

/-- C3 (amended): on create the stored `number` is `max(input, 0)`, hence
never negative, and an input of `-5` is stored as `0`; the update path,
however, stores the merged `number` verbatim, so a negative number supplied
on a PUT is persisted negative. -/
theorem c3_create_clamps_update_copies :
    (∀ (store : Store) (s : State) (key : String) (rec : Record),
      (post_new_store store s).1 = .ok (key, rec) →
      rec.number = max store.number 0 ∧ 0 ≤ rec.number)
  ∧ (post_new_store negStore s0).1 =
      .ok ("key0", ⟨"AAPL01", "UNITED STATES", "CUPERTINO", "1 INFINITE LOOP", 0,
        none, none, none, "http://x", 0, 1⟩)
  ∧ (∀ (s : State) (k : String) (u : UpdateDict) (r : Record) (n : Int),
      dbGet s.db k = some r → u.number = some n →
      ∃ rec s', update_store s k u = (.ok (some rec), s') ∧ rec.number = n) := by
  refine ⟨?_, by decide, ?_⟩
  · intro store s key rec h
    rw [post_ok_inv store s key rec h]
    constructor
    · rfl
    · exact le_max_right _ _
  · intro s k u r n h hn
    refine ⟨_, _, update_store_found s k u r h, ?_⟩
    simp [normalize, applyUpdate, hn]

/-- Witness for C3's amended theorem: the clamp on a freshly created record,
and a PUT carrying `number = -5` persisting `-5`. -/
theorem c3_witness :
    (sampleRec.number = max sampleStore.number 0 ∧ 0 ≤ sampleRec.number)
  ∧ ∃ rec s', update_store (post_new_store sampleStore s0).2 "key0" uNeg =
      (.ok (some rec), s') ∧ rec.number = -5 :=
  ⟨c3_create_clamps_update_copies.1 sampleStore s0 "key0" sampleRec (by decide),
   c3_create_clamps_update_copies.2.2 (post_new_store sampleStore s0).2 "key0" uNeg
     sampleRec (-5) (by decide) (by decide)⟩

/-- C4: the handler of `GET /stores/{id}` always returns an HTTP 200 whose
body is the raw lookup result — for an absent id that body is null, never
the 404 the source's unreachable `except` branch was meant to raise; for a
present id it is the stored record. -/
theorem c4_get_absent_returns_null :
    (∀ (s : State) (store_id : String),
      get_store_details s store_id = .ok (dbGet s.db store_id))
  ∧ get_store_details s0 "missing" = .ok none := by
  constructor
  · intro s store_id
    unfold get_store_details
    cases h : dbGet s.db store_id <;> simp [h]
  · decide

/-- C5 (counterexample): a create whose four location fields all pass
validation is still rejected when its `link` is the single character `"x"`:
the handler raises the `[LINK]`-tagged 400, so `link` is neither optional
nor free of length validation. -/
theorem c5_counterexample :
    post_new_store shortLinkStore s0 =
      (.httpErr ⟨400, "[LINK] Value x is too short"⟩, s0) :=
  post_reject_link shortLinkStore s0 (by decide) (by decide) (by decide) (by decide) (by decide)

/-- C5 (amended): `link` is a required field validated for minimum length
exactly like the location fields: when the four location fields pass, a
`link` of length at most 3 is rejected with a `[LINK]`-tagged 400 and a
`link` of length at least 4 is accepted; `phone`, `latitude` and
`longitude` (arbitrary in every statement here) are optional and subject to
no validation. -/
theorem c5_link_is_validated (store : Store) (s : State)
    (h0 : 4 ≤ store.code_name.length) (h1 : 4 ≤ store.country.length)
    (h2 : 4 ≤ store.city.length) (h3 : 4 ≤ store.address.length) :
    (store.link.length ≤ 3 →
      post_new_store store s =
        (.httpErr ⟨400, "[LINK] Value " ++ store.link ++ " is too short"⟩, s))
  ∧ (4 ≤ store.link.length → ∃ kr, (post_new_store store s).1 = .ok kr) := by
  constructor
  · exact fun h => post_reject_link store s h0 h1 h2 h3 h
  · intro h4
    exact ⟨_, by rw [post_success store s h0 h1 h2 h3 h4]⟩

/-- Witness for C5's amended theorem at the concrete short-link request. -/
theorem c5_witness :
    (shortLinkStore.link.length ≤ 3 →
      post_new_store shortLinkStore s0 =
        (.httpErr ⟨400, "[LINK] Value " ++ shortLinkStore.link ++ " is too short"⟩, s0))
  ∧ (4 ≤ shortLinkStore.link.length →
      ∃ kr, (post_new_store shortLinkStore s0).1 = .ok kr) :=
  c5_link_is_validated shortLinkStore s0 (by decide) (by decide) (by decide) (by decide)

/-- C6: whenever a create is rejected by validation (the handler's result
is a raised `HTTPException`), the whole process state — in particular the
stores collection — is exactly the state before the request: all length
checks precede the `db.put`, so no write happens on a validation error. -/
theorem c6_no_write_on_validation_error (store : Store) (s : State) (e : HTTPException)
    (h : (post_new_store store s).1 = .httpErr e) :
    (post_new_store store s).2 = s := by
  unfold post_new_store at h ⊢
  split_ifs at h ⊢
  all_goals simp_all [now, dbPutNew]

/-- Witness for C6: the rejected 3-character `code_name` request leaves the
initial state untouched. -/
theorem c6_witness : (post_new_store shortStore s0).2 = s0 :=
  c6_no_write_on_validation_error shortStore s0
    ⟨400, "[CODE_NAME] Value abc is too short"⟩ (by decide)

/-- An update dict supplying no field at all. -/
def uEmpty : UpdateDict :=
  ⟨none, none, none, none, none, none, none, none, none, none, none⟩

/-- C7 (counterexample): a PUT whose body carries `created_at = 100`
rewrites the stored `created_at` (the create had stamped `0`): the merge
step writes the client's value and the rewrite step copies it back, and the
resulting record has `updated_at = 2 < created_at = 100`, breaking the
`updated_at ≥ created_at` invariant as well. -/
theorem c7_counterexample :
    ((post_new_store sampleStore s0).2.db "key0").map Record.created_at = some 0
  ∧ ((update_store (post_new_store sampleStore s0).2 "key0" uCreated).2).db "key0" =
      some ⟨"AAPL01", "UNITED STATES", "CUPERTINO", "1 INFINITE LOOP", 7, none, none, none,
        "http://x", 100, 2⟩ := by
  decide

/-- C7 (amended): for an existing record, a PUT whose body does not supply
`created_at` leaves `created_at` unchanged and re-stamps `updated_at` to
the strictly later current tick, preserving `updated_at ≥ created_at`; a
body that does supply `created_at` rewrites it (see the counterexample). -/
theorem c7_put_restamps_updated_at (s : State) (k : String) (u : UpdateDict) (r : Record)
    (h : dbGet s.db k = some r) (hc : u.created_at = none)
    (hclk : r.updated_at < s.clock) (hcu : r.created_at ≤ r.updated_at) :
    ∃ rec s', update_store s k u = (.ok (some rec), s')
      ∧ rec.created_at = r.created_at
      ∧ r.updated_at < rec.updated_at
      ∧ rec.created_at ≤ rec.updated_at
      ∧ dbGet s'.db k = some rec := by
  refine ⟨_, _, update_store_found s k u r h, ?_, ?_, ?_, ?_⟩
  · simp [normalize, applyUpdate, hc]
  · simpa using hclk
  · simp [normalize, applyUpdate, hc]
    omega
  · simp [dbGet, dbSet, dbUpdate]
    simp [dbGet] at h
    simp [h]

/-- Witness for C7's amended theorem: an empty-bodied PUT on the freshly
created record keeps `created_at = 0` and re-stamps `updated_at` from 1 to
the strictly later tick 2. -/
theorem c7_witness :
    ∃ rec s', update_store (post_new_store sampleStore s0).2 "key0" uEmpty =
        (.ok (some rec), s')
      ∧ rec.created_at = sampleRec.created_at
      ∧ sampleRec.updated_at < rec.updated_at
      ∧ rec.created_at ≤ rec.updated_at
      ∧ dbGet s'.db "key0" = some rec :=
  c7_put_restamps_updated_at (post_new_store sampleStore s0).2 "key0" uEmpty sampleRec
    (by decide) (by decide) (by decide) (by decide)

/-- C8 (counterexample): the create of the sample request stamps
`created_at = 0` but `updated_at = 1`: the two timestamps come from two
separate `datetime.now(timezone.utc)` calls (`src/main.py` lines 147-148),
between which the clock advances, so they are not the same value. -/
theorem c8_counterexample :
    (post_new_store sampleStore s0).1 = .ok ("key0", sampleRec)
  ∧ sampleRec.created_at ≠ sampleRec.updated_at := by
  decide

/-- C8 (amended): on every successful create, `created_at` is stamped from
the first clock read and `updated_at` from the immediately following one,
so `created_at ≤ updated_at` holds at creation — but the two stamps are
two successive reads, not one shared value, and are unequal whenever the
clock advances between them. -/
theorem c8_create_stamps_in_order (store : Store) (s : State) (key : String) (rec : Record)
    (h : (post_new_store store s).1 = .ok (key, rec)) :
    rec.created_at = s.clock ∧ rec.updated_at = s.clock + 1
      ∧ rec.created_at ≤ rec.updated_at := by
  rw [post_ok_inv store s key rec h]
  exact ⟨rfl, rfl, Nat.le_succ _⟩

/-- Witness for C8's amended theorem at the sample create. -/
theorem c8_witness :
    sampleRec.created_at = s0.clock ∧ sampleRec.updated_at = s0.clock + 1
      ∧ sampleRec.created_at ≤ sampleRec.updated_at :=
  c8_create_stamps_in_order sampleStore s0 "key0" sampleRec (by decide)

/-- C9: the normalization the write path applies before persistence is a
pure function on records and is idempotent; it is case-insensitive-stable
on the concrete example (`"sao paulo"` and `"SAO PAULO"` both normalize to
`"SAO PAULO"`); and every record a successful create persists is a fixpoint
of `normalize`. -/
theorem c9_normalize_idempotent :
    (∀ r : Record, normalize (normalize r) = normalize r)
  ∧ upperStr "sao paulo" = "SAO PAULO"
  ∧ upperStr "SAO PAULO" = "SAO PAULO"
  ∧ (∀ (store : Store) (s : State) (key : String) (rec : Record),
      (post_new_store store s).1 = .ok (key, rec) → normalize rec = rec) := by
  refine ⟨?_, by decide, by decide, ?_⟩
  · intro r
    simp [normalize, upperStr_idem]
  · intro store s key rec h
    rw [post_ok_inv store s key rec h]
    simp [normalize, upperStr_idem]

/-- Witness for C9's fixpoint conjunct: the persisted sample record is
already normalized. -/
theorem c9_witness : normalize sampleRec = sampleRec :=
  c9_normalize_idempotent.2.2.2 sampleStore s0 "key0" sampleRec (by decide)

/-- C10: a PUT on an id with no stored record reaches no explicit error
branch: the merge-update leaves the store unchanged, the read-back is
`None`, and the handler's unconditional `req["code_name"]` subscript fails
with a `TypeError` — an unhandled exception, not a 404 or 400 response. -/
theorem c10_put_absent_crashes (s : State) (store_id : String) (u : UpdateDict)
    (h : dbGet s.db store_id = none) :
    update_store s store_id u =
      (.crash "TypeError: NoneType object is not subscriptable",
        { s with db := dbUpdate s.db store_id u }) := by
  have hm : dbGet (dbUpdate s.db store_id u) store_id = none := by
    simp [dbGet, dbUpdate] at h ⊢
    simp [h]
  simp [update_store, hm]

/-- Witness for C10: a PUT on the empty collection crashes on the `None`
dereference. -/
theorem c10_witness :
    update_store s0 "missing" uNeg =
      (.crash "TypeError: NoneType object is not subscriptable",
        { s0 with db := dbUpdate s0.db "missing" uNeg }) :=
  c10_put_absent_crashes s0 "missing" uNeg (by decide)

end AppleStores
